import Mathlib

/-!
Verification of the Booking-Portal reservation, pricing and payment-reconciliation
logic against its specification.

The development shallowly embeds the TypeScript source:

* `calculatePrice` embeds the pricing utility (`src/utils` price calculation file):
  JavaScript numbers are modelled as exact rationals `ℚ`.
* `calendarCalculatePrice` embeds the calendar page's wrapper around the utility.
* `preSaveCheck` embeds the mongoose `pre('save')` hook of `src/models/Booking.ts`
  (chronological-order validation followed by the cross-booking conflict query).
  Stored calendar dates are canonical `YYYY-MM-DD` strings; they are modelled by
  their chronological key (a natural number), which is order- and
  equality-isomorphic to the canonical string form.
* `isTimeSlotAvailable` embeds the calendar page's availability check.
* `verifyPayment` embeds the payment-verification endpoint's reconciliation of a
  retrieved payment intent into booking/user state; `confirmBooking` embeds the
  booking-confirmation endpoint.  Timestamps (`new Date()`) are modelled as a
  `now : Nat` parameter; the count of dispatched confirmation emails is tracked
  in an `emailsSent` counter.
-/

namespace BookingPortal

/-- Time slot of a room selection: `full`, `morning` or `evening`
(`TimeSlot` in `@/constants/pricing`). -/
inductive TimeSlot where
  | full
  | morning
  | evening
deriving DecidableEq, Repr

/-- Booking type: `daily` or `monthly` (`BookingType` in `@/constants/pricing`). -/
inductive BookingType where
  | daily
  | monthly
deriving DecidableEq, Repr

/-- `RoomForPrice` from the pricing utility: a room id, its selected time slot and
its selected dates (dates only matter through their count here). -/
structure RoomForPrice where
  id : Nat
  timeSlot : TimeSlot
  dates : List String
deriving DecidableEq, Repr

/-- `PriceBreakdown` returned by the pricing utility. -/
structure PriceBreakdown where
  subtotal : ℚ
  tax : ℚ
  securityDeposit : ℚ
  total : ℚ
deriving DecidableEq, Repr

def fullDayPrice : ℚ := 300
def halfDayPrice : ℚ := 160
def monthlyFullDayPrice : ℚ := 2000
def monthlyHalfDayPrice : ℚ := 1200

/-- Contribution of a single room to the subtotal, following the body of the
`rooms.forEach` loop of `calculatePrice`: a room with zero selected dates is
skipped (contributes nothing); for daily bookings the unit price
(`fullDayPrice` for a full-day slot, otherwise `halfDayPrice`) is multiplied by
the number of dates; for monthly bookings a flat per-room price applies. -/
def roomCost (bookingType : BookingType) (room : RoomForPrice) : ℚ :=
  let numberOfDays := room.dates.length
  if numberOfDays = 0 then 0
  else if bookingType = BookingType.daily then
    (if room.timeSlot = TimeSlot.full then fullDayPrice else halfDayPrice) * numberOfDays
  else
    if room.timeSlot = TimeSlot.full then monthlyFullDayPrice else monthlyHalfDayPrice

/-- The pricing utility `calculatePrice(rooms, bookingType, isMembershipActive)`. -/
def calculatePrice (rooms : List RoomForPrice) (bookingType : BookingType)
    (isMembershipActive : Bool) : PriceBreakdown :=
  let subtotal := (rooms.map (roomCost bookingType)).sum
  let tax := subtotal * (35 / 1000 : ℚ)
  let securityDeposit : ℚ := if isMembershipActive then 0 else 250
  { subtotal := subtotal
    tax := tax
    securityDeposit := securityDeposit
    total := subtotal + tax + securityDeposit }

/-- The calendar page's `calculatePrice` wrapper: it filters the selected rooms
to those with at least one date, returns `null` when none remains, and otherwise
calls the pricing utility with the session's membership flag
(`session?.user?.isMembershipActive || false`). -/
def calendarCalculatePrice (selectedRooms : List RoomForPrice) (bookingType : BookingType)
    (sessionMembership : Option Bool) : Option PriceBreakdown :=
  let selectedRoomsWithDates := selectedRooms.filter (fun room => room.dates.length != 0)
  if selectedRoomsWithDates.length = 0 then none
  else some (calculatePrice selectedRoomsWithDates bookingType (sessionMembership.getD false))

/-- Swap of the two half-day slots: `morning ↔ evening`, `full` fixed. -/
def slotFlip : TimeSlot → TimeSlot
  | TimeSlot.full => TimeSlot.full
  | TimeSlot.morning => TimeSlot.evening
  | TimeSlot.evening => TimeSlot.morning

/-- A room selection with its half-day slot swapped. -/
def roomFlip (room : RoomForPrice) : RoomForPrice :=
  { room with timeSlot := slotFlip room.timeSlot }

lemma roomCost_roomFlip (bt : BookingType) (r : RoomForPrice) :
    roomCost bt (roomFlip r) = roomCost bt r := by
  cases h : r.timeSlot <;>
    simp [roomCost, roomFlip, slotFlip, h]

lemma roomCost_empty_dates (bt : BookingType) (r : RoomForPrice) (h : r.dates = []) :
    roomCost bt r = 0 := by
  simp [roomCost, h]

lemma subtotal_all_empty (bt : BookingType) (rooms : List RoomForPrice)
    (h : ∀ r ∈ rooms, r.dates = []) :
    (rooms.map (roomCost bt)).sum = 0 := by
  induction rooms with
  | nil => simp
  | cons a l ih =>
    simp [roomCost_empty_dates bt a (h a (by simp)), ih (fun r hr => h r (by simp [hr]))]

/-- C6: for every list of room selections, booking type and room count, the price
breakdown has `securityDeposit = 0` when `isMembershipActive` is true and
`securityDeposit = 250` when it is false, and `total = subtotal + tax +
securityDeposit`. -/
theorem securityDeposit_rule (rooms : List RoomForPrice) (bt : BookingType) (m : Bool) :
    (calculatePrice rooms bt m).securityDeposit = (if m then 0 else 250) ∧
    (calculatePrice rooms bt m).total =
      (calculatePrice rooms bt m).subtotal + (calculatePrice rooms bt m).tax +
        (calculatePrice rooms bt m).securityDeposit :=
  ⟨rfl, rfl⟩

/-- C7: a daily booking of one room with a full-day slot, exactly three dates and a
non-member user is priced `subtotal = 900`, `tax = 31.50`,
`securityDeposit = 250`, `total = 1181.50`. -/
theorem daily_three_dates_scenario :
    (calculatePrice [⟨1, TimeSlot.full, ["2025-06-02", "2025-06-03", "2025-06-04"]⟩]
        BookingType.daily false).subtotal = 900 ∧
    (calculatePrice [⟨1, TimeSlot.full, ["2025-06-02", "2025-06-03", "2025-06-04"]⟩]
        BookingType.daily false).tax = 31.5 ∧
    (calculatePrice [⟨1, TimeSlot.full, ["2025-06-02", "2025-06-03", "2025-06-04"]⟩]
        BookingType.daily false).securityDeposit = 250 ∧
    (calculatePrice [⟨1, TimeSlot.full, ["2025-06-02", "2025-06-03", "2025-06-04"]⟩]
        BookingType.daily false).total = 1181.5 := by
  refine ⟨?_, ?_, ?_, ?_⟩ <;> norm_num [calculatePrice, roomCost, fullDayPrice, halfDayPrice]

/-- C9: replacing any one room's `morning` slot by `evening` (or vice versa)
leaves the whole price breakdown unchanged; the price depends only on whether the
slot is `full`. -/
theorem halfDay_slot_symmetry (pre post : List RoomForPrice) (r : RoomForPrice)
    (bt : BookingType) (m : Bool) :
    calculatePrice (pre ++ roomFlip r :: post) bt m = calculatePrice (pre ++ r :: post) bt m := by
  simp [calculatePrice, roomCost_roomFlip]

/-- C10: removing from the room list a room whose date list is empty leaves the
price breakdown unchanged — such a room contributes nothing to the subtotal for
either booking type. -/
theorem empty_room_removal_neutral (pre post : List RoomForPrice) (r : RoomForPrice)
    (bt : BookingType) (m : Bool) (h : r.dates = []) :
    calculatePrice (pre ++ post) bt m = calculatePrice (pre ++ r :: post) bt m := by
  simp [calculatePrice, roomCost_empty_dates bt r h]

/-- Witness for C10: dropping a dateless room from a concrete two-room list does
not change the price. -/
theorem empty_room_removal_neutral_witness :
    calculatePrice ([⟨1, TimeSlot.full, ["2025-06-02"]⟩] ++ []) BookingType.daily false =
      calculatePrice ([⟨1, TimeSlot.full, ["2025-06-02"]⟩] ++ ⟨2, TimeSlot.morning, []⟩ :: [])
        BookingType.daily false :=
  empty_room_removal_neutral [⟨1, TimeSlot.full, ["2025-06-02"]⟩] []
    ⟨2, TimeSlot.morning, []⟩ BookingType.daily false rfl

/-- C8 counterexample: on an input whose only room has an empty date list the
pricing utility does not reject; it returns a priced breakdown consisting of the
security deposit alone. -/
theorem calculatePrice_no_dates_cex :
    calculatePrice [⟨1, TimeSlot.full, []⟩] BookingType.daily false =
      { subtotal := 0, tax := 0, securityDeposit := 250, total := 250 } := by
  norm_num [calculatePrice, roomCost]

/-- C8 amended: the calendar page's wrapper returns `none` whenever no selected
room has a non-empty date list, while the underlying pricing utility applied to
such an input returns a breakdown whose subtotal is `0` and whose total is
exactly the security deposit. -/
theorem calendar_rejects_empty_selection (rooms : List RoomForPrice) (bt : BookingType)
    (sm : Option Bool) (h : ∀ r ∈ rooms, r.dates = []) :
    calendarCalculatePrice rooms bt sm = none ∧
    (calculatePrice rooms bt (sm.getD false)).subtotal = 0 ∧
    (calculatePrice rooms bt (sm.getD false)).total =
      (calculatePrice rooms bt (sm.getD false)).securityDeposit := by
  have hfilter : rooms.filter (fun room => room.dates.length != 0) = [] := by
    apply List.filter_eq_nil_iff.mpr
    intro r hr
    simp [h r hr]
  refine ⟨?_, ?_, ?_⟩
  · simp [calendarCalculatePrice, hfilter]
  · simp [calculatePrice, subtotal_all_empty bt rooms h]
  · simp [calculatePrice, subtotal_all_empty bt rooms h]

/-- Witness for C8: the wrapper yields `none` on a concrete dateless selection. -/
theorem calendar_rejects_empty_selection_witness :
    calendarCalculatePrice [⟨1, TimeSlot.full, []⟩] BookingType.daily none = none :=
  (calendar_rejects_empty_selection [⟨1, TimeSlot.full, []⟩] BookingType.daily none
    (by decide)).1

/-- One entry of a room's `dates` array in the Booking schema.  The stored
`date` field is a canonical `YYYY-MM-DD` string; it is modelled by its
chronological key (canonical date strings are order- and equality-isomorphic to
these keys, and the `pre('save')` hook compares them through `new Date(...)`). -/
structure BookingDate where
  date : Nat
  startTime : String
  endTime : String
deriving DecidableEq, Repr

/-- One element of a Booking's `rooms` array. -/
structure BookingRoom where
  roomId : String
  name : String
  timeSlot : TimeSlot
  dates : List BookingDate
deriving DecidableEq, Repr

/-- The structured error stored in `paymentDetails.error` by the
payment-verification endpoint. -/
structure StoredPaymentError where
  message : String
  code : Option String
  decline_code : Option String
deriving DecidableEq, Repr

/-- The Booking document's `paymentDetails` sub-document (union of the fields the
schema and the two reconciliation endpoints write). -/
structure PaymentDetails where
  status : Option String := none
  confirmedAt : Option Nat := none
  updatedAt : Option Nat := none
  amount : Option Int := none
  currency : Option String := none
  paymentMethodType : Option String := none
  error : Option StoredPaymentError := none
  lastUpdated : Option Nat := none
deriving DecidableEq, Repr

/-- A Booking document.  `status` and `paymentStatus` are kept as strings, as in
the mongoose schema (`pending`, `confirmed`, `cancelled`, `failed` /
`pending`, `succeeded`, `failed`). -/
structure BookingDoc where
  id : Nat
  userId : String
  rooms : List BookingRoom
  bookingType : BookingType
  totalAmount : ℚ
  status : String
  paymentStatus : String
  paymentIntentId : Option String := none
  paymentDetails : PaymentDetails := {}
  isMembershipActive : Bool := false
  updatedAt : Option Nat := none
deriving DecidableEq, Repr

/-- The chronological-order loop of the `pre('save')` hook: it walks adjacent
pairs and fails as soon as `dates[i] < dates[i-1]`. -/
def datesChronological : List BookingDate → Bool
  | [] => true
  | [_] => true
  | d1 :: d2 :: rest => decide (d1.date ≤ d2.date) && datesChronological (d2 :: rest)

/-- The conflict query of the `pre('save')` hook for one room of the booking
being saved: an existing booking conflicts iff it is a different document, its
status is `pending` or `confirmed`, and one of its room entries has the same
`roomId`, the same `timeSlot`, and at least one stored date among the new room's
dates (`$elemMatch` with `dates.date $in room.dates`). -/
def roomConflict (selfId : Nat) (room : BookingRoom) (other : BookingDoc) : Bool :=
  (other.id != selfId) &&
  (other.status == "pending" || other.status == "confirmed") &&
  other.rooms.any (fun r =>
    r.roomId == room.roomId && r.timeSlot == room.timeSlot &&
    r.dates.any (fun d => (room.dates.map BookingDate.date).contains d.date))

/-- The per-room loop of the `pre('save')` hook: for each room, first validate
chronological order of its dates, then run the conflict query; the first failure
aborts the save with the corresponding error message. -/
def preSaveRooms (selfId : Nat) (existing : List BookingDoc) :
    List BookingRoom → Except String Unit
  | [] => Except.ok ()
  | room :: rest =>
    if datesChronological room.dates then
      if existing.any (fun other => roomConflict selfId room other) then
        Except.error ("Room " ++ room.name ++
          " is already booked for some of the selected dates and time slot")
      else preSaveRooms selfId existing rest
    else
      Except.error ("Dates for room " ++ room.name ++ " must be in chronological order")

/-- The `pre('save')` validation of `src/models/Booking.ts`, run against the set
of already persisted bookings. -/
def preSaveCheck (b : BookingDoc) (existing : List BookingDoc) : Except String Unit :=
  preSaveRooms b.id existing b.rooms

/-- One entry of the calendar page's `bookingStatus` array: the time slots
already reserved for a `(date, roomId)` pair, as strings. -/
structure DayStatus where
  date : String
  roomId : String
  timeSlots : List String
deriving DecidableEq, Repr

/-- The calendar page's `isTimeSlotAvailable(date, roomId, timeSlot)` check,
after the date has been formatted to `YYYY-MM-DD` and the room id to a string:
look up the status entry for the exact `(date, roomId)` pair; with no entry the
slot is free; a reserved `full` slot blocks everything; a `full` request is
blocked by a reserved `morning` or `evening`; a half-day request is blocked by
the same half-day or by `full`. -/
def isTimeSlotAvailable (bookingStatus : List DayStatus) (dateStr : String)
    (roomIdStr : String) (timeSlot : TimeSlot) : Bool :=
  match bookingStatus.find? (fun b => b.date == dateStr && b.roomId == roomIdStr) with
  | none => true
  | some status =>
    if status.timeSlots.contains "full" then false
    else
      match timeSlot with
      | TimeSlot.full =>
          !(status.timeSlots.contains "morning") && !(status.timeSlots.contains "evening")
      | TimeSlot.morning =>
          !(status.timeSlots.contains "morning") && !(status.timeSlots.contains "full")
      | TimeSlot.evening =>
          !(status.timeSlots.contains "evening") && !(status.timeSlots.contains "full")

/-- Modelled from the spec's rule table (§4.2): which requested slot is blocked
by the set of already reserved slots — `full` by any of `morning`, `evening`,
`full`; `morning` by `morning` or `full`; `evening` by `evening` or `full`.
Used to compare the source's `isTimeSlotAvailable` against the specified table. -/
def specBlocks (existingSlots : List String) : TimeSlot → Bool
  | TimeSlot.full =>
      existingSlots.contains "morning" || existingSlots.contains "evening" ||
        existingSlots.contains "full"
  | TimeSlot.morning => existingSlots.contains "morning" || existingSlots.contains "full"
  | TimeSlot.evening => existingSlots.contains "evening" || existingSlots.contains "full"

lemma datesChronological_iff (l : List BookingDate) :
    datesChronological l = true ↔ l.Chain' (fun a b => a.date ≤ b.date) := by
  induction l with
  | nil => simp [datesChronological]
  | cons a l ih =>
    cases l with
    | nil => simp [datesChronological]
    | cons b m =>
      rw [datesChronological]
      simp [List.chain'_cons, ih, and_comm]

lemma preSaveRooms_ok (selfId : Nat) (existing : List BookingDoc) (rooms : List BookingRoom)
    (hchron : ∀ r ∈ rooms, datesChronological r.dates = true)
    (hconf : ∀ r ∈ rooms, ∀ o ∈ existing, roomConflict selfId r o = false) :
    preSaveRooms selfId existing rooms = Except.ok () := by
  induction rooms with
  | nil => rfl
  | cons room rest ih =>
    have h1 : datesChronological room.dates = true := hchron room (by simp)
    have h2 : existing.any (fun other => roomConflict selfId room other) = false := by
      simp only [List.any_eq_false]
      intro o ho
      simp [hconf room (by simp) o ho]
    rw [preSaveRooms, h1, if_pos rfl, h2]
    simp only [Bool.false_eq_true, if_false]
    exact ih (fun r hr => hchron r (by simp [hr])) (fun r hr o ho => hconf r (by simp [hr]) o ho)

lemma preSaveRooms_err_unsorted (selfId : Nat) (existing : List BookingDoc)
    (rooms : List BookingRoom) (h : ∃ r ∈ rooms, datesChronological r.dates = false) :
    preSaveRooms selfId existing rooms ≠ Except.ok () := by
  induction rooms with
  | nil => simp at h
  | cons room rest ih =>
    rw [preSaveRooms]
    by_cases hc : datesChronological room.dates
    · rw [if_pos hc]
      by_cases ha : existing.any (fun other => roomConflict selfId room other)
      · rw [if_pos ha]
        exact fun hcon => Except.noConfusion hcon
      · rw [if_neg ha]
        apply ih
        rcases h with ⟨r, hr, hrf⟩
        rcases List.mem_cons.mp hr with h1 | h1
        · rw [h1] at hrf; rw [hrf] at hc; simp at hc
        · exact ⟨r, h1, hrf⟩
    · rw [if_neg hc]
      exact fun hcon => Except.noConfusion hcon

lemma preSaveRooms_err_conflict (selfId : Nat) (existing : List BookingDoc)
    (rooms : List BookingRoom)
    (h : ∃ r ∈ rooms, ∃ o ∈ existing, roomConflict selfId r o = true) :
    preSaveRooms selfId existing rooms ≠ Except.ok () := by
  induction rooms with
  | nil => simp at h
  | cons room rest ih =>
    rw [preSaveRooms]
    by_cases hc : datesChronological room.dates
    · rw [if_pos hc]
      by_cases ha : existing.any (fun other => roomConflict selfId room other)
      · rw [if_pos ha]
        exact fun hcon => Except.noConfusion hcon
      · rw [if_neg ha]
        apply ih
        rcases h with ⟨r, hr, o, ho, hconf⟩
        rcases List.mem_cons.mp hr with h1 | h1
        · exfalso
          apply ha
          rw [h1] at hconf
          exact List.any_eq_true.mpr ⟨o, ho, hconf⟩
        · exact ⟨r, h1, o, ho, hconf⟩
    · rw [if_neg hc]
      exact fun hcon => Except.noConfusion hcon

lemma roomConflict_of_overlap (b e : BookingDoc) (rb re : BookingRoom) (D : Nat)
    (hstatus : e.status = "pending" ∨ e.status = "confirmed") (hne : b.id ≠ e.id)
    (hre : re ∈ e.rooms)
    (hirid : re.roomId = rb.roomId) (hislot : re.timeSlot = rb.timeSlot)
    (hDre : D ∈ re.dates.map BookingDate.date) (hDrb : D ∈ rb.dates.map BookingDate.date) :
    roomConflict b.id rb e = true := by
  obtain ⟨d, hd, hdate⟩ := List.mem_map.mp hDre
  simp only [roomConflict, Bool.and_eq_true, Bool.or_eq_true, bne_iff_ne, ne_eq,
    beq_iff_eq, List.any_eq_true, List.elem_eq_mem, decide_eq_true_eq]
  exact ⟨⟨fun h => hne h.symm, hstatus⟩, re, hre, ⟨hirid, hislot⟩, d, hd, hdate ▸ hDrb⟩

/-- An active full-day reservation of room `R1` on the date keyed `20250610`. -/
def existingFullBooking : BookingDoc :=
  { id := 1, userId := "u1",
    rooms := [{ roomId := "R1", name := "Room 1", timeSlot := TimeSlot.full,
                dates := [⟨20250610, "08:00", "18:00"⟩] }],
    bookingType := BookingType.daily, totalAmount := 300,
    status := "pending", paymentStatus := "pending" }

/-- A different booking requesting the morning slot of the same room on the same
date. -/
def morningAttempt : BookingDoc :=
  { id := 2, userId := "u2",
    rooms := [{ roomId := "R1", name := "Room 1", timeSlot := TimeSlot.morning,
                dates := [⟨20250610, "08:00", "12:00"⟩] }],
    bookingType := BookingType.daily, totalAmount := 160,
    status := "pending", paymentStatus := "pending" }

/-- A different booking requesting the full-day slot of the same room on the same
date. -/
def sameSlotAttempt : BookingDoc :=
  { id := 3, userId := "u3",
    rooms := [{ roomId := "R1", name := "Room 1", timeSlot := TimeSlot.full,
                dates := [⟨20250610, "08:00", "18:00"⟩] }],
    bookingType := BookingType.daily, totalAmount := 300,
    status := "pending", paymentStatus := "pending" }

/-- A different booking requesting the full-day slot of the same room on another
date. -/
def otherDateAttempt : BookingDoc :=
  { id := 4, userId := "u4",
    rooms := [{ roomId := "R1", name := "Room 1", timeSlot := TimeSlot.full,
                dates := [⟨20250611, "08:00", "18:00"⟩] }],
    bookingType := BookingType.daily, totalAmount := 300,
    status := "pending", paymentStatus := "pending" }

/-- C3 counterexample: with an active full-day booking of `(R1, 20250610)` in the
store, a different booking requesting the morning slot of the same room on the
same date passes the `pre('save')` validation — the persistence-time conflict
query matches only the identical `timeSlot`, so the cross-slot attempt is not
rejected there. -/
theorem preSave_cross_slot_allowed_cex :
    preSaveCheck morningAttempt [existingFullBooking] = Except.ok () := by rfl

/-- C3 amended: at save time, a different booking that requests the same room,
the same time slot and an overlapping date as an active (pending or confirmed)
booking is rejected by the `pre('save')` hook, and a booking none of whose rooms
conflicts under that same-slot rule (in particular one requesting a different
date) is accepted; the full cross-slot blocking table (full blocks morning and
evening and conversely) is enforced only by the calendar availability checker
`isTimeSlotAvailable`, which matches the specified rule table exactly. -/
theorem conflict_exclusivity_amended :
    (∀ (b e : BookingDoc) (rb re : BookingRoom) (D : Nat),
      (e.status = "pending" ∨ e.status = "confirmed") → b.id ≠ e.id →
      re ∈ e.rooms → rb ∈ b.rooms →
      re.roomId = rb.roomId → re.timeSlot = rb.timeSlot →
      D ∈ re.dates.map BookingDate.date → D ∈ rb.dates.map BookingDate.date →
      preSaveCheck b [e] ≠ Except.ok ()) ∧
    (∀ (b : BookingDoc) (existing : List BookingDoc),
      (∀ r ∈ b.rooms, datesChronological r.dates = true) →
      (∀ r ∈ b.rooms, ∀ o ∈ existing, roomConflict b.id r o = false) →
      preSaveCheck b existing = Except.ok ()) ∧
    (∀ (st : DayStatus) (slot : TimeSlot),
      isTimeSlotAvailable [st] st.date st.roomId slot = !(specBlocks st.timeSlots slot)) := by
  refine ⟨?_, ?_, ?_⟩
  · intro b e rb re D hstatus hne hre hrb hirid hislot hDre hDrb
    apply preSaveRooms_err_conflict
    exact ⟨rb, hrb, e, by simp,
      roomConflict_of_overlap b e rb re D hstatus hne hre hirid hislot hDre hDrb⟩
  · intro b existing h1 h2
    exact preSaveRooms_ok b.id existing b.rooms h1 h2
  · intro st slot
    have hfind : ([st].find? (fun x => x.date == st.date && x.roomId == st.roomId)) = some st := by
      simp [List.find?]
    rw [isTimeSlotAvailable, hfind]
    cases slot <;>
      · by_cases hf : st.timeSlots.contains "full" <;>
        by_cases hm : st.timeSlots.contains "morning" <;>
        by_cases he : st.timeSlots.contains "evening" <;>
          simp_all [specBlocks]

/-- Witness for C3 amended: a concrete same-slot same-date attempt is rejected,
and a concrete different-date attempt is accepted. -/
theorem conflict_exclusivity_amended_witness :
    preSaveCheck sameSlotAttempt [existingFullBooking] ≠ Except.ok () ∧
    preSaveCheck otherDateAttempt [existingFullBooking] = Except.ok () :=
  ⟨conflict_exclusivity_amended.1 sameSlotAttempt existingFullBooking
      ⟨"R1", "Room 1", TimeSlot.full, [⟨20250610, "08:00", "18:00"⟩]⟩
      ⟨"R1", "Room 1", TimeSlot.full, [⟨20250610, "08:00", "18:00"⟩]⟩
      20250610 (Or.inl rfl) (by decide) (by decide) (by decide) rfl rfl
      (by decide) (by decide),
   conflict_exclusivity_amended.2.1 otherDateAttempt [existingFullBooking]
      (by decide) (by decide)⟩

/-- A booking whose single room lists its dates out of chronological order. -/
def unsortedBooking : BookingDoc :=
  { id := 5, userId := "u5",
    rooms := [{ roomId := "R2", name := "Room 2", timeSlot := TimeSlot.full,
                dates := [⟨20250612, "08:00", "18:00"⟩, ⟨20250611, "08:00", "18:00"⟩] }],
    bookingType := BookingType.daily, totalAmount := 600,
    status := "pending", paymentStatus := "pending" }

/-- A booking whose single room lists its dates in ascending order. -/
def sortedBooking : BookingDoc :=
  { id := 6, userId := "u6",
    rooms := [{ roomId := "R2", name := "Room 2", timeSlot := TimeSlot.full,
                dates := [⟨20250611, "08:00", "18:00"⟩, ⟨20250612, "08:00", "18:00"⟩] }],
    bookingType := BookingType.daily, totalAmount := 600,
    status := "pending", paymentStatus := "pending" }

/-- C5: the chronological check of the `pre('save')` hook accepts a room's date
list exactly when it is non-decreasing; a booking containing a room whose dates
are out of order fails the save, and a booking whose rooms are all in ascending
order and free of room conflicts saves successfully. -/
theorem chronological_validation (b : BookingDoc) (existing : List BookingDoc) :
    (∀ dates : List BookingDate,
      datesChronological dates = true ↔ dates.Chain' (fun a b => a.date ≤ b.date)) ∧
    ((∃ r ∈ b.rooms, datesChronological r.dates = false) →
      preSaveCheck b existing ≠ Except.ok ()) ∧
    ((∀ r ∈ b.rooms, datesChronological r.dates = true) →
      (∀ r ∈ b.rooms, ∀ o ∈ existing, roomConflict b.id r o = false) →
      preSaveCheck b existing = Except.ok ()) := by
  refine ⟨datesChronological_iff, ?_, ?_⟩
  · intro h
    exact preSaveRooms_err_unsorted b.id existing b.rooms h
  · intro h1 h2
    exact preSaveRooms_ok b.id existing b.rooms h1 h2

/-- Witness for C5: a concrete out-of-order booking is rejected and a concrete
ascending one is accepted. -/
theorem chronological_validation_witness :
    preSaveCheck unsortedBooking [] ≠ Except.ok () ∧
    preSaveCheck sortedBooking [] = Except.ok () :=
  ⟨(chronological_validation unsortedBooking []).2.1 (by decide),
   (chronological_validation sortedBooking []).2.2 (by decide) (by decide)⟩

/-- The User document fields touched by reconciliation, plus the
`preferences.emailNotifications` flag consulted before sending the confirmation
email in the booking-confirmation endpoint. -/
structure UserDoc where
  isMembershipActive : Bool
  membershipActivatedAt : Option Nat
  updatedAt : Option Nat := none
  emailNotifications : Bool := true
deriving DecidableEq, Repr

/-- The processor's `last_payment_error` object (fields may be absent). -/
structure StripeError where
  message : Option String
  code : Option String
  decline_code : Option String
deriving DecidableEq, Repr

/-- The retrieved payment intent as consumed by the payment-verification
endpoint: its reported status, amount, currency, payment-method types, optional
last payment error, and the `shouldActivateMembership` metadata flag (the JS
compares `metadata?.shouldActivateMembership === 'true'`). -/
structure PaymentIntent where
  status : String
  amount : Int
  currency : String
  payment_method_types : List String
  last_payment_error : Option StripeError
  shouldActivateMembership : Bool
deriving DecidableEq, Repr

/-- The observable state a reconciliation request acts on: the booking looked up
for the notification, its owning user, and the number of confirmation emails
dispatched so far. -/
structure ReconState where
  booking : BookingDoc
  user : UserDoc
  emailsSent : Nat
deriving DecidableEq, Repr

/-- The payment-verification endpoint's reconciliation, for a booking already
looked up by the intent's metadata (the endpoint 404s before this point when the
booking or user is missing).  On `succeeded` it activates membership when the
metadata flag is set and the user is not yet a member, overwrites the booking's
`paymentDetails` with a fresh object whose `confirmedAt` is the current time,
marks the booking confirmed, and dispatches a confirmation email; on any other
reported status it marks the booking failed and stores the structured error from
`last_payment_error`, leaving the user untouched. -/
def verifyPayment (pi : PaymentIntent) (now : Nat) (s : ReconState) : ReconState :=
  if pi.status == "succeeded" then
    let user :=
      if pi.shouldActivateMembership && !s.user.isMembershipActive then
        { s.user with
          isMembershipActive := true
          membershipActivatedAt := some now
          updatedAt := some now }
      else s.user
    let booking :=
      { s.booking with
        status := "confirmed"
        paymentStatus := "succeeded"
        paymentDetails :=
          { status := some "succeeded"
            confirmedAt := some now
            amount := some pi.amount
            currency := some pi.currency
            paymentMethodType := some (pi.payment_method_types.headD "card") }
        isMembershipActive := true
        updatedAt := some now }
    { booking := booking, user := user, emailsSent := s.emailsSent + 1 }
  else
    { s with
      booking :=
        { s.booking with
          status := "failed"
          paymentStatus := "failed"
          paymentDetails :=
            { status := some "failed"
              updatedAt := some now
              error := some
                { message := (pi.last_payment_error.bind StripeError.message).getD
                    "Payment was not successful"
                  code := pi.last_payment_error.bind StripeError.code
                  decline_code := pi.last_payment_error.bind StripeError.decline_code } } } }

/-- The body of a request to the booking-confirmation endpoint (after input
validation and date sanitization; stored dates are canonical, so the
normalization pass is the identity here). -/
structure ConfirmRequest where
  paymentIntentId : String
  paymentStatus : String
  paymentDetails : PaymentDetails
  rooms : List BookingRoom
  bookingType : BookingType
  totalAmount : ℚ
deriving DecidableEq, Repr

/-- The booking-confirmation endpoint's reconciliation, for the booking matched
by `paymentIntentId` (the endpoint 404s before this point when none matches).
It overwrites the trusted fields: status becomes `confirmed` when the reported
payment status is `succeeded` and otherwise stays `pending`; the caller-supplied
`paymentDetails` are stored with a `lastUpdated` stamp; on success a non-member
user is activated and, when the user's email-notification preference is on, a
confirmation email is dispatched. -/
def confirmBooking (req : ConfirmRequest) (sessionUserId : String) (now : Nat)
    (s : ReconState) : ReconState :=
  let booking :=
    { s.booking with
      userId := sessionUserId
      rooms := req.rooms
      bookingType := req.bookingType
      totalAmount := req.totalAmount
      status := if req.paymentStatus == "succeeded" then "confirmed" else "pending"
      paymentStatus := req.paymentStatus
      paymentDetails := { req.paymentDetails with lastUpdated := some now }
      updatedAt := some now }
  let user :=
    if req.paymentStatus == "succeeded" && !s.user.isMembershipActive then
      { s.user with
        isMembershipActive := true
        membershipActivatedAt := some now
        updatedAt := some now }
    else s.user
  let emailsSent :=
    if req.paymentStatus == "succeeded" && s.user.emailNotifications then s.emailsSent + 1
    else s.emailsSent
  { booking := booking, user := user, emailsSent := emailsSent }

/-- The membership update of the booking-confirmation endpoint
(`src/app/api/bookings/confirm/route.ts`): activate and stamp only when the
payment succeeded and the user is not yet a member. -/
def membershipUpdateConfirm (succeeded : Bool) (now : Nat) (u : UserDoc) : UserDoc :=
  if succeeded && !u.isMembershipActive then
    { u with
      isMembershipActive := true
      membershipActivatedAt := some now
      updatedAt := some now }
  else u

/-- The membership update of the alternate confirmation endpoint: on success it
always sets the flag but keeps an existing `membershipActivatedAt`
(`user.membershipActivatedAt = user.membershipActivatedAt || new Date()`). -/
def membershipUpdateAlt (succeeded : Bool) (now : Nat) (u : UserDoc) : UserDoc :=
  if succeeded then
    { u with
      isMembershipActive := true
      membershipActivatedAt := some (u.membershipActivatedAt.getD now)
      updatedAt := some now }
  else u

/-- One reconciliation event acting on the user's membership state, through
either confirmation endpoint. -/
inductive ReconEvent where
  | viaConfirm (succeeded : Bool) (now : Nat)
  | viaAlt (succeeded : Bool) (now : Nat)
deriving DecidableEq, Repr

/-- Apply one reconciliation event's membership effect. -/
def applyEvent (u : UserDoc) : ReconEvent → UserDoc
  | ReconEvent.viaConfirm s n => membershipUpdateConfirm s n u
  | ReconEvent.viaAlt s n => membershipUpdateAlt s n u

/-- Number of `false → true` transitions of `isMembershipActive` along a run. -/
def activationCount (u : UserDoc) : List ReconEvent → Nat
  | [] => 0
  | e :: es =>
    let u' := applyEvent u e
    (if !u.isMembershipActive && u'.isMembershipActive then 1 else 0) + activationCount u' es

/-- A user who has never paid: no membership, no activation stamp. -/
def freshUser : UserDoc := { isMembershipActive := false, membershipActivatedAt := none }

/-- A booking awaiting payment reconciliation. -/
def pendingBooking : BookingDoc :=
  { id := 7, userId := "u7", rooms := [], bookingType := BookingType.daily,
    totalAmount := 1181.5, status := "pending", paymentStatus := "pending",
    paymentIntentId := some "pi_7" }

/-- Initial reconciliation state: pending booking, fresh user, no emails sent. -/
def initialRecon : ReconState :=
  { booking := pendingBooking, user := freshUser, emailsSent := 0 }

/-- A succeeded payment intent, delivered (possibly repeatedly) for
`pendingBooking`. -/
def dupIntent : PaymentIntent :=
  { status := "succeeded", amount := 118150, currency := "usd",
    payment_method_types := ["card"], last_payment_error := none,
    shouldActivateMembership := true }

/-- C1: evaluating the payment-verification reconciliation at a duplicated
succeeded notification shows the claimed idempotence failing in the code: the
first application stamps `paymentDetails.confirmedAt` with its own time, the
second application re-stamps it with the later time (so `confirmedAt` is not
preserved), and each application dispatches a confirmation email, for two
dispatches across the two applications instead of at most one. -/
theorem verifyPayment_duplicate_restamps :
    (verifyPayment dupIntent 1 initialRecon).booking.paymentDetails.confirmedAt = some 1 ∧
    (verifyPayment dupIntent 2
        (verifyPayment dupIntent 1 initialRecon)).booking.paymentDetails.confirmedAt = some 2 ∧
    (verifyPayment dupIntent 2
        (verifyPayment dupIntent 1 initialRecon)).booking.paymentDetails.confirmedAt ≠
      (verifyPayment dupIntent 1 initialRecon).booking.paymentDetails.confirmedAt ∧
    (verifyPayment dupIntent 2 (verifyPayment dupIntent 1 initialRecon)).emailsSent = 2 := by
  refine ⟨rfl, rfl, ?_, rfl⟩
  intro h
  rw [show (verifyPayment dupIntent 2
        (verifyPayment dupIntent 1 initialRecon)).booking.paymentDetails.confirmedAt =
      some 2 from rfl,
    show (verifyPayment dupIntent 1 initialRecon).booking.paymentDetails.confirmedAt =
      some 1 from rfl] at h
  simp at h

/-- A reconciliation request reporting a failed payment to the
booking-confirmation endpoint. -/
def failedConfirmReq : ConfirmRequest :=
  { paymentIntentId := "pi_7", paymentStatus := "failed",
    paymentDetails := { status := some "failed" }, rooms := [],
    bookingType := BookingType.daily, totalAmount := 0 }

/-- C2 counterexample: reconciling a notification with `paymentStatus = failed`
through the booking-confirmation endpoint leaves the booking's `status` at
`pending` — not `failed` as claimed — while recording the failed payment
status. -/
theorem confirmBooking_failed_keeps_pending_cex :
    (confirmBooking failedConfirmReq "u7" 5 initialRecon).booking.status = "pending" ∧
    (confirmBooking failedConfirmReq "u7" 5 initialRecon).booking.paymentStatus = "failed" :=
  ⟨rfl, rfl⟩

/-- C2 amended: through the payment-verification endpoint, every reconciliation
whose reported status is not `succeeded` ends with booking `status = failed` and
`paymentStatus = failed`, stores a structured error (with the processor's
message, code and decline code when reported, and a default message otherwise),
and leaves the owning user — in particular `isMembershipActive` and
`membershipActivatedAt` — completely unchanged; the booking-confirmation
endpoint instead sets `status = pending` on non-success. -/
theorem verifyPayment_failure_amended (pi : PaymentIntent) (now : Nat) (s : ReconState)
    (h : pi.status ≠ "succeeded") :
    (verifyPayment pi now s).booking.status = "failed" ∧
    (verifyPayment pi now s).booking.paymentStatus = "failed" ∧
    ((verifyPayment pi now s).booking.paymentDetails.error).isSome = true ∧
    (∀ e : StripeError, pi.last_payment_error = some e →
      (verifyPayment pi now s).booking.paymentDetails.error =
        some { message := e.message.getD "Payment was not successful",
               code := e.code, decline_code := e.decline_code }) ∧
    (verifyPayment pi now s).user = s.user := by
  have hbeq : (pi.status == "succeeded") = false := by
    simp [h]
  simp only [verifyPayment, hbeq, Bool.false_eq_true, if_false]
  refine ⟨by trivial, by trivial, by trivial, ?_, by trivial⟩
  intro e he
  simp [he]

/-- A payment intent declined by the processor with `decline_code =
card_declined`. -/
def declinedIntent : PaymentIntent :=
  { status := "failed", amount := 118150, currency := "usd",
    payment_method_types := ["card"],
    last_payment_error := some
      { message := some "Your card was declined.", code := some "card_declined",
        decline_code := some "card_declined" },
    shouldActivateMembership := false }

/-- Witness for C2 amended: a concrete declined payment yields a failed booking
with the processor's structured error and an untouched user. -/
theorem verifyPayment_failure_amended_witness :
    (verifyPayment declinedIntent 9 initialRecon).booking.status = "failed" ∧
    (verifyPayment declinedIntent 9 initialRecon).booking.paymentStatus = "failed" ∧
    ((verifyPayment declinedIntent 9 initialRecon).booking.paymentDetails.error).isSome = true ∧
    (∀ e : StripeError, declinedIntent.last_payment_error = some e →
      (verifyPayment declinedIntent 9 initialRecon).booking.paymentDetails.error =
        some { message := e.message.getD "Payment was not successful",
               code := e.code, decline_code := e.decline_code }) ∧
    (verifyPayment declinedIntent 9 initialRecon).user = initialRecon.user :=
  verifyPayment_failure_amended declinedIntent 9 initialRecon (by decide)

lemma applyEvent_active (u : UserDoc) (hu : u.isMembershipActive = true) (e : ReconEvent) :
    (applyEvent u e).isMembershipActive = true := by
  cases e with
  | viaConfirm s n => cases s <;> simp [applyEvent, membershipUpdateConfirm, hu]
  | viaAlt s n => cases s <;> simp [applyEvent, membershipUpdateAlt, hu]

lemma applyEvent_member_fields (u : UserDoc) (hu : u.isMembershipActive = true)
    (hsome : u.membershipActivatedAt.isSome = true) (e : ReconEvent) :
    (applyEvent u e).isMembershipActive = u.isMembershipActive ∧
    (applyEvent u e).membershipActivatedAt = u.membershipActivatedAt := by
  cases e with
  | viaConfirm s n => cases s <;> simp [applyEvent, membershipUpdateConfirm, hu]
  | viaAlt s n =>
    obtain ⟨t, ht⟩ := Option.isSome_iff_exists.mp hsome
    cases s <;> simp [applyEvent, membershipUpdateAlt, hu, ht]

lemma activationCount_active (u : UserDoc) (hu : u.isMembershipActive = true)
    (es : List ReconEvent) : activationCount u es = 0 := by
  induction es generalizing u with
  | nil => rfl
  | cons e es ih =>
    rw [activationCount]
    simp [hu, ih (applyEvent u e) (applyEvent_active u hu e)]

lemma activationCount_le_one (u : UserDoc) (es : List ReconEvent) :
    activationCount u es ≤ 1 := by
  induction es generalizing u with
  | nil => exact Nat.zero_le 1
  | cons e es ih =>
    rw [activationCount]
    by_cases hu : u.isMembershipActive
    · simp [hu, activationCount_active (applyEvent u e) (applyEvent_active u hu e)]
    · have hu' : u.isMembershipActive = false := by simpa using hu
      by_cases h2 : (applyEvent u e).isMembershipActive
      · simp [hu', h2, activationCount_active (applyEvent u e) (by simpa using h2)]
      · have h2' : (applyEvent u e).isMembershipActive = false := by simpa using h2
        simp [hu', h2']
        exact ih (applyEvent u e)

/-- C4: along any sequence of reconciliation events through either confirmation
endpoint, a user's `isMembershipActive` flips from false to true at most once,
and once the user is a member (with an activation stamp, as both endpoints
guarantee when they activate), any further reconciliation — successful or not —
leaves both `isMembershipActive` and `membershipActivatedAt` unchanged. -/
theorem membership_monotonic (u : UserDoc) (events : List ReconEvent)
    (hsome : u.isMembershipActive = true → u.membershipActivatedAt.isSome = true) :
    activationCount u events ≤ 1 ∧
    (u.isMembershipActive = true → ∀ e : ReconEvent,
      (applyEvent u e).isMembershipActive = u.isMembershipActive ∧
      (applyEvent u e).membershipActivatedAt = u.membershipActivatedAt) :=
  ⟨activationCount_le_one u events,
   fun hu e => applyEvent_member_fields u hu (hsome hu) e⟩

/-- A user activated at time 3. -/
def memberUser : UserDoc := { isMembershipActive := true, membershipActivatedAt := some 3 }

/-- Two further successful reconciliations for an already-member user. -/
def furtherEvents : List ReconEvent := [ReconEvent.viaConfirm true 5, ReconEvent.viaAlt true 6]

/-- Witness for C4: for a concrete member user and concrete further successful
reconciliations, the transition count stays at most one and the activation stamp
is untouched. -/
theorem membership_monotonic_witness :
    activationCount memberUser furtherEvents ≤ 1 ∧
    (applyEvent memberUser (ReconEvent.viaAlt true 9)).membershipActivatedAt =
      memberUser.membershipActivatedAt :=
  ⟨(membership_monotonic memberUser furtherEvents (fun _ => rfl)).1,
   ((membership_monotonic memberUser furtherEvents (fun _ => rfl)).2 rfl
      (ReconEvent.viaAlt true 9)).2⟩

end BookingPortal
